import Mathlib

set_option maxRecDepth 40000

/-!
Verification of the biblio repository core: a shallow embedding of the
magic-byte identifier engine, the text classifier, the PDB/MOBI/EXTH binary
parsers, the IANA/Mobipocket language-tag codec, and the metadata dispatch
layer, translated from the Python sources (biblio/identifiers, biblio/parsers,
biblio/plugs.py), together with theorems settling the specification claims.

Bytes are modelled as `Nat` (file bytes are < 256), byte strings as `List Nat`.
Python exceptions are modelled explicitly: a function that can raise returns
`Option` (a raise collapses to `none`) or an error-carrying result type when
the identity of the exception matters.
-/

namespace Biblio

/-- Byte values of a string (ASCII literals of the source). -/
def sbytes (s : String) : List Nat := s.toList.map Char.toNat

/-- Big-endian value of a byte list (struct.unpack on fixed-width fields). -/
def beVal (bs : List Nat) : Nat := bs.foldl (fun acc b => acc * 256 + b) 0

/-- Read `sz` bytes big-endian at offset `off`. -/
def readBE (xs : List Nat) (off sz : Nat) : Nat := beVal ((xs.drop off).take sz)

/-- Python slice-index normalisation: negative indices count from the end,
and all indices clamp to `[0, n]`. -/
def normIdx (i : Int) (n : Nat) : Nat :=
  if i < 0 then ((n : Int) + i).toNat else min i.toNat n

/-- Python slice `xs[i:j]` on byte strings, with clamping and negative
indices as in CPython. -/
def pySlice (xs : List Nat) (i j : Int) : List Nat :=
  (xs.take (normIdx j xs.length)).drop (normIdx i xs.length)

/-- Python slice `xs[i:j]` for already non-negative indices. -/
def pySliceN (xs : List Nat) (i j : Nat) : List Nat :=
  (xs.take (min j xs.length)).drop (min i xs.length)

/-- One step of Python `str.find`: does `needle` occur at exactly index `k`? -/
def occursAt (xs needle : List Nat) (k : Nat) : Bool :=
  (xs.drop k).take needle.length = needle

def pyFindAux (xs needle : List Nat) (k stop fuel : Nat) : Int :=
  match fuel with
  | 0 => -1
  | fuel + 1 =>
    if k + needle.length ≤ stop then
      if occursAt xs needle k then (k : Int) else pyFindAux xs needle (k + 1) stop fuel
    else -1

/-- Python `xs.find(needle, start, stop)`: lowest absolute index `k` with
`start' ≤ k`, `k + len(needle) ≤ stop'` and a match, else `-1`; `start`/`stop`
are normalised like slice bounds. -/
def pyFind (xs needle : List Nat) (start stop : Int) : Int :=
  let a := normIdx start xs.length
  let b := normIdx stop xs.length
  pyFindAux xs needle a b (b + 1 - a)

/-- Python `str.strip()` whitespace set. -/
def pySpace (c : Nat) : Bool := c = 32 ∨ c = 9 ∨ c = 10 ∨ c = 13 ∨ c = 11 ∨ c = 12

/-- Python `str.strip()`: remove leading and trailing whitespace. -/
def pyStrip (s : List Nat) : List Nat :=
  ((s.dropWhile pySpace).reverse.dropWhile pySpace).reverse

/-! ## Text classifier (biblio/identifiers/text.py) -/

/-- The 256-entry character category table `text_chars`:
0 = never in text, 1 = plain ASCII text, 2 = ISO-8859, 3 = non-ISO extended. -/
def textCharsTable : List Nat :=
  [ 0, 0, 0, 0, 0, 0, 0, 1, 1, 1, 1, 0, 1, 1, 0, 0,  -- 0x00 - 0x0f
    0, 0, 0, 0, 0, 0, 0, 0, 0, 0, 0, 1, 0, 0, 0, 0,  -- 0x10 - 0x1f
    1, 1, 1, 1, 1, 1, 1, 1, 1, 1, 1, 1, 1, 1, 1, 1,  -- 0x20 - 0x2f
    1, 1, 1, 1, 1, 1, 1, 1, 1, 1, 1, 1, 1, 1, 1, 1,  -- 0x30 - 0x3f
    1, 1, 1, 1, 1, 1, 1, 1, 1, 1, 1, 1, 1, 1, 1, 1,  -- 0x40 - 0x4f
    1, 1, 1, 1, 1, 1, 1, 1, 1, 1, 1, 1, 1, 1, 1, 1,  -- 0x50 - 0x5f
    1, 1, 1, 1, 1, 1, 1, 1, 1, 1, 1, 1, 1, 1, 1, 1,  -- 0x60 - 0x6f
    1, 1, 1, 1, 1, 1, 1, 1, 1, 1, 1, 1, 1, 1, 1, 0,  -- 0x70 - 0x7f
    3, 3, 3, 3, 3, 1, 3, 3, 3, 3, 3, 3, 3, 3, 3, 3,  -- 0x80 - 0x8f
    3, 3, 3, 3, 3, 3, 3, 3, 3, 3, 3, 3, 3, 3, 3, 3,  -- 0x90 - 0x9f
    2, 2, 2, 2, 2, 2, 2, 2, 2, 2, 2, 2, 2, 2, 2, 2,  -- 0xa0 - 0xaf
    2, 2, 2, 2, 2, 2, 2, 2, 2, 2, 2, 2, 2, 2, 2, 2,  -- 0xb0 - 0xbf
    2, 2, 2, 2, 2, 2, 2, 2, 2, 2, 2, 2, 2, 2, 2, 2,  -- 0xc0 - 0xcf
    2, 2, 2, 2, 2, 2, 2, 2, 2, 2, 2, 2, 2, 2, 2, 2,  -- 0xd0 - 0xdf
    2, 2, 2, 2, 2, 2, 2, 2, 2, 2, 2, 2, 2, 2, 2, 2,  -- 0xe0 - 0xef
    2, 2, 2, 2, 2, 2, 2, 2, 2, 2, 2, 2, 2, 2, 2, 2 ] -- 0xf0 - 0xff

def textChars (c : Nat) : Nat := textCharsTable.getD c 0

/-- `looks_like_utf8` scanning loop.  The mode is `none` when expecting a lead
byte and `some k` when `k` continuation bytes of a multibyte sequence are
still expected; `found` is the running result (1 until a complete multibyte
sequence is seen, then 2).  Truncation inside a sequence returns `found`. -/
def utf8scan : List Nat → Option Nat → Int → Int
  | [], _, found => found
  | c :: rest, some k, found =>
    if c &&& 0x80 = 0 ∨ c &&& 0x40 ≠ 0 then -1
    else if k = 1 then utf8scan rest none 2
    else utf8scan rest (some (k - 1)) found
  | c :: rest, none, found =>
    if c &&& 0x80 = 0 then
      if textChars c ≠ 1 then 0 else utf8scan rest none found
    else if c &&& 0x40 = 0 then -1
    else if c &&& 0x20 = 0 then utf8scan rest (some 1) found
    else if c &&& 0x10 = 0 then utf8scan rest (some 2) found
    else if c &&& 0x08 = 0 then utf8scan rest (some 3) found
    else if c &&& 0x04 = 0 then utf8scan rest (some 4) found
    else if c &&& 0x02 = 0 then utf8scan rest (some 5) found
    else -1

/-- `looks_like_utf8(buffer)`: -1 invalid UTF-8, 0 rejected control character,
1 plain 7-bit text, 2 valid multibyte UTF-8 seen. -/
def looksLikeUtf8 (buffer : List Nat) : Int := utf8scan buffer none 1

/-- `is_text(buff)` = `looks_like_utf8(buff) > 0`. -/
def isText (buff : List Nat) : Bool := 0 < looksLikeUtf8 buff

/-! ## File types (biblio/identify/filetypes.py) -/

/-- The static enumeration of recognized file types.  The source represents
them as named `filetype` namedtuples; equality is by tag identity. -/
inductive FileType
  | FLAC | ID3V22 | ID3V23 | ID3V24 | M4A | MP3_1 | MP3_2 | MP3_25
  | GIF87A | GIF89A | JPEG_JFIF | JPEG_EXIF | PNG | SVG
  | OPENOFFICE1_WRITER | OPENOFFICE1_CALC | OPENOFFICE1_DRAW
  | OPENOFFICE1_IMPRESS | OPENOFFICE1_MATH | OPENOFFICE1_DATABASE | PDF
  | EPUB2 | EPUB3 | LIT | MOBI | PDB_EREADER | PDB_GUTENPALM | PDB_PALMDOC
  | PDB_PLUCKER | AVI | M4V1 | M4V2 | M4V | MKV | WEBM
  | ZIP09 | ZIP10 | ZIP11 | ZIP20 | ZIP30 | OPF2 | XHTML | HTML | XML
  deriving DecidableEq, Repr

/-! ## Identifier engine (biblio/identifiers/init module)

Python exceptions raised while running the engine, by identity:
`structError` is `struct.error` from an unpack over a too-short slice;
`nameError` is the `NameError` raised by the undefined name
`RuntimeException` on a negative resolved string offset; and
`unboundLocalError` is the `UnboundLocalError` raised when `current_pos`
is read inside `test_identifier_rules` before any rule has assigned it
(the closure makes it a fresh local of each call, so the enclosing
`current_pos = 0` never initializes it).
-/

inductive PyErr
  | structError | nameError | unboundLocalError | attributeError
  deriving DecidableEq, Repr

/-- Result of Python code that may raise. -/
inductive PyResult (α : Type)
  | ok (a : α)
  | err (e : PyErr)
  deriving DecidableEq, Repr

/-- A struct pack-descriptor field, from the descriptors appearing in the
builtin table: `>H` = [u16be], `>l` = [i32be], `>b` = [i8], `bb` = [i8, i8]
(native order is irrelevant for single-byte fields). -/
inductive PackElem
  | u16be | i32be | i8
  deriving DecidableEq, Repr

def packSize : PackElem → Nat
  | .u16be => 2
  | .i32be => 4
  | .i8 => 1

/-- `struct.calcsize` of a descriptor. -/
def calcsize (p : List PackElem) : Nat := (p.map packSize).sum

/-- Decode one field from exactly `packSize` bytes (big-endian, signed where
the descriptor is signed). -/
def decodeElem (e : PackElem) (bs : List Nat) : Int :=
  match e with
  | .u16be => (beVal bs : Int)
  | .i32be => let v := beVal bs; if v < 2 ^ 31 then (v : Int) else (v : Int) - 2 ^ 32
  | .i8 => let v := beVal bs; if v < 128 then (v : Int) else (v : Int) - 256

/-- `struct.unpack(pack, bs)`: fails (`none`) unless `bs` has exactly
`calcsize pack` bytes. -/
def unpackVals : List PackElem → List Nat → Option (List Int)
  | [], [] => some []
  | [], _ :: _ => none
  | e :: es, bs =>
    if packSize e ≤ bs.length then
      (unpackVals es (bs.drop (packSize e))).map (decodeElem e (bs.take (packSize e)) :: ·)
    else none

/-- Atoms of the two regular expressions used by the builtin table, written
as a small AST: a literal run, a single character from a class, or a greedy
`[^...]+` run.  The concrete patterns are transcribed atom by atom. -/
inductive RegexAtom
  | lit (s : List Nat)
  | oneOf (cs : List Nat)
  | plusNoneOf (cs : List Nat)
  deriving DecidableEq, Repr

/-- First `some` among `f` applied to the candidate lengths. -/
def firstSome (f : Nat → Option Nat) : List Nat → Option Nat
  | [] => none
  | j :: js => match f j with
    | some r => some r
    | none => firstSome f js

/-- Match a sequence of atoms at the head of `inp`, returning the number of
consumed bytes; `[^...]+` is greedy with backtracking as in `re`. -/
def matchAtoms : List RegexAtom → List Nat → Option Nat
  | [], _ => some 0
  | a :: rest, inp =>
    match a with
    | .lit s =>
      if inp.take s.length = s then (matchAtoms rest (inp.drop s.length)).map (s.length + ·)
      else none
    | .oneOf cs =>
      match inp with
      | [] => none
      | c :: tl => if cs.contains c then (matchAtoms rest tl).map (1 + ·) else none
    | .plusNoneOf cs =>
      let m := (inp.takeWhile (fun c => !(cs.contains c))).length
      firstSome (fun j => (matchAtoms rest (inp.drop j)).map (j + ·))
        ((List.range m).map (fun i => m - i))

/-- `re.search(pattern, value)` with `match.end(0)`: try each start position
from 0 upward, return the end index of the first match. -/
def regexSearchEnd (atoms : List RegexAtom) : List Nat → Nat → Option Nat
  | inp, k =>
    match matchAtoms atoms inp with
    | some r => some (k + r)
    | none =>
      match inp with
      | [] => none
      | _ :: tl => regexSearchEnd atoms tl (k + 1)

/-- A rule offset: an absolute integer, or the string forms `"+n"` / `"-n"`
relative to the cursor. -/
inductive POffset
  | intOff (n : Int)
  | plusOff (n : Nat)
  | minusOff (n : Nat)
  deriving DecidableEq, Repr

/-- The rule variants of the identifier engine (the `func` escape hatch is
not modelled: no builtin program registers one). -/
inductive Rule
  | strRule (off : POffset) (val : List Nat)
  | structRule (off : POffset) (pack : List PackElem) (vals : List Int)
  | searchRule (off : POffset) (size : Nat) (val : List Nat)
  | regexRule (off : POffset) (size : Nat) (val : List RegexAtom)
  deriving DecidableEq, Repr

/-- The `identifier` namedtuple: text/binary acceptance flags plus rules. -/
structure Identifier where
  text : Bool
  binary : Bool
  rules : List Rule
  deriving DecidableEq, Repr

/-- Offset resolution inside `_calc_identifier_sizes`, whose own `cpos`
starts at 0 (unlike the match phase it performs no negativity check). -/
def calcOffset (cpos : Int) : POffset → Int
  | .intOff n => n
  | .plusOff n => cpos + n
  | .minusOff n => cpos - n

def calcSizesAux : List Rule → Int → Int → Int → Int × Int
  | [], minSz, maxSz, _ => (minSz, maxSz)
  | r :: rest, minSz, maxSz, cpos =>
    match r with
    | .strRule off val =>
      let o := calcOffset cpos off
      let c := o + val.length
      calcSizesAux rest (min minSz c) (max maxSz c) c
    | .structRule off pack _ =>
      let o := calcOffset cpos off
      let c := o + calcsize pack
      calcSizesAux rest (min minSz c) (max maxSz c) c
    | .searchRule off size _ =>
      let o := calcOffset cpos off
      calcSizesAux rest (min minSz o) (max maxSz (o + size)) o
    | .regexRule off size _ =>
      let o := calcOffset cpos off
      calcSizesAux rest (min minSz o) (max maxSz (o + size)) o

/-- `_calc_identifier_sizes(identifier)`: `min_size` starts at 4096 and takes
the minimum of the per-rule end positions; `max_size` is the furthest byte
any rule might read. -/
def calcIdentifierSizes (rules : List Rule) : Int × Int :=
  calcSizesAux rules 4096 0 0

/-- Offset resolution inside `test_identifier_rules`: the cursor is the
closure-local `current_pos`, unassigned (`none`) until some rule assigns it;
string offsets are checked non-negative (the check raises through the
undefined name `RuntimeException`, i.e. a `NameError`). -/
def runOffset (cpos : Option Int) : POffset → PyResult Int
  | .intOff n => .ok n
  | .plusOff n =>
    match cpos with
    | none => .err .unboundLocalError
    | some c => if c + (n : Int) < 0 then .err .nameError else .ok (c + n)
  | .minusOff n =>
    match cpos with
    | none => .err .unboundLocalError
    | some c => if c - (n : Int) < 0 then .err .nameError else .ok (c - n)

/-- The rule-execution loop of `test_identifier_rules`. -/
def runRules (data : List Nat) : List Rule → Option Int → PyResult Bool
  | [], _ => .ok true
  | r :: rest, cpos =>
    match r with
    | .strRule off val =>
      match runOffset cpos off with
      | .err e => .err e
      | .ok o =>
        if pySlice data o (o + val.length) = val then
          runRules data rest (some (o + val.length))
        else .ok false
    | .structRule off pack vals =>
      match runOffset cpos off with
      | .err e => .err e
      | .ok o =>
        match unpackVals pack (pySlice data o (o + calcsize pack)) with
        | none => .err .structError
        | some vs =>
          if vs = vals then runRules data rest (some (o + calcsize pack))
          else .ok false
    | .searchRule off size val =>
      match runOffset cpos off with
      | .err e => .err e
      | .ok o =>
        let p := pyFind data val o (o + size)
        if p < 0 then .ok false
        else runRules data rest (some (p + val.length))
    | .regexRule off size val =>
      match runOffset cpos off with
      | .err e => .err e
      | .ok o =>
        match regexSearchEnd val (pySlice data o (o + size)) 0 with
        | none => .ok false
        | some e => runRules data rest (some (o + e))

/-- `test_identifier_rules(ident)` on the pre-read buffer `data`: reject
outright when `len(data) < min_size`, otherwise run the rules with the
cursor local still unassigned. -/
def testIdentifierRules (data : List Nat) (ident : Identifier) : PyResult Bool :=
  let sizes := calcIdentifierSizes ident.rules
  if (data.length : Int) < sizes.1 then .ok false
  else runRules data ident.rules none

/-! ## Builtin identifier programs (initialize_builtin_pluggables)

`ib()` programs are binary-only (`text=False`), `it()` programs text-only
(`binary=False`).  Each program is transcribed from its builder chain. -/

def ib (rules : List Rule) : Identifier := ⟨false, true, rules⟩

def it (rules : List Rule) : Identifier := ⟨true, false, rules⟩

def identEPUB2 : Identifier := ib
  [ .strRule (.intOff 0) (sbytes "PK" ++ [3, 4]),
    .strRule (.intOff 26) ([8, 0, 0, 0] ++ sbytes "mimetypeapplication/"),
    .strRule (.intOff 50) (sbytes "epub+zip") ]

def identMOBI : Identifier := ib [.strRule (.intOff 60) (sbytes "BOOKMOBI")]

def identEREADER : Identifier := ib [.strRule (.intOff 60) (sbytes "PNRdPPrs")]

def identGUTENPALM : Identifier := ib [.strRule (.intOff 60) (sbytes "zTXT")]

def identPALMDOC : Identifier := ib [.strRule (.intOff 60) (sbytes "TEXtREAd")]

def identPLUCKER : Identifier := ib [.strRule (.intOff 60) (sbytes "DataPlkr")]

def identLIT : Identifier := ib [.strRule (.intOff 0) (sbytes "ITOLITLS")]

def identGIF87A : Identifier := ib [.strRule (.intOff 0) (sbytes "GIF87a")]

def identGIF89A : Identifier := ib [.strRule (.intOff 0) (sbytes "GIF89a")]

def identJPEG_JFIF : Identifier := ib
  [ .structRule (.intOff 0) [.u16be] [0xffd8],
    .strRule (.intOff 6) (sbytes "JFIF") ]

def identJPEG_EXIF : Identifier := ib
  [ .structRule (.intOff 0) [.u16be] [0xffd8],
    .strRule (.intOff 6) (sbytes "Exif") ]

def identPNG : Identifier := ib
  [.strRule (.intOff 0) ([0x89] ++ sbytes "PNG" ++ [0x0d, 0x0a, 0x1a, 0x0a])]

def identFLAC : Identifier := ib [.strRule (.intOff 0) (sbytes "fLaC" ++ [0])]

def identM4A : Identifier := ib [.strRule (.intOff 4) (sbytes "ftypM4A ")]

def identMP3_1 : Identifier := ib [.structRule (.intOff 0) [.u16be] [0xfffb]]

def identID3V22 : Identifier := ib
  [ .strRule (.intOff 0) (sbytes "ID3"),
    .structRule (.intOff 3) [.i8, .i8] [2, 0] ]

def identID3V23 : Identifier := ib
  [ .strRule (.intOff 0) (sbytes "ID3"),
    .structRule (.intOff 3) [.i8, .i8] [3, 0] ]

def identID3V24 : Identifier := ib
  [ .strRule (.intOff 0) (sbytes "ID3"),
    .structRule (.intOff 3) [.i8, .i8] [4, 0] ]

def identM4V1a : Identifier := ib [.strRule (.intOff 4) (sbytes "ftypisom")]

def identM4V1b : Identifier := ib [.strRule (.intOff 4) (sbytes "ftypmp41")]

def identM4V2 : Identifier := ib [.strRule (.intOff 4) (sbytes "ftypmp42")]

def identM4V : Identifier := ib [.strRule (.intOff 4) (sbytes "ftypM4V ")]

def identMKV : Identifier := ib
  [ .structRule (.intOff 0) [.i32be] [0x1a45dfa3],
    .searchRule (.intOff 5) 4096 [0x42, 0x82],
    .strRule (.plusOff 1) (sbytes "matroska") ]

def identWEBM : Identifier := ib
  [ .structRule (.intOff 0) [.i32be] [0x1a45dfa3],
    .searchRule (.intOff 5) 4096 [0x42, 0x82],
    .strRule (.plusOff 1) (sbytes "webm") ]

def identAVI : Identifier := ib
  [ .strRule (.intOff 0) (sbytes "RIFF"),
    .strRule (.intOff 8) (sbytes "AVI ") ]

/-- The OPF2 pattern
`<package[^>]+xmlns=['"]http://www.idpf.org/2007/opf['"]` atom by atom
(0x27 = single quote, 0x22 = double quote). -/
def opfRegex : List RegexAtom :=
  [ .lit (sbytes "<package"),
    .plusNoneOf (sbytes ">"),
    .lit (sbytes "xmlns="),
    .oneOf [0x27, 0x22],
    .lit (sbytes "http://www.idpf.org/2007/opf"),
    .oneOf [0x27, 0x22] ]

/-- The SVG pattern `<svg[^>]+xmlns=['"http://www.w3.org/2000/svg['"]`,
preserving the source's unclosed-class typo: everything after `xmlns=` is a
single character class. -/
def svgRegex : List RegexAtom :=
  [ .lit (sbytes "<svg"),
    .plusNoneOf (sbytes ">"),
    .lit (sbytes "xmlns="),
    .oneOf ([0x27, 0x22] ++ sbytes "http://www.w3.org/2000/svg[" ++ [0x27, 0x22]) ]

def identOPF2 : Identifier := it
  [ .strRule (.intOff 0) (sbytes "<?xml"),
    .regexRule (.intOff 20) 400 opfRegex ]

def identSVG : Identifier := it
  [ .strRule (.intOff 0) (sbytes "<?xml"),
    .regexRule (.intOff 20) 400 svgRegex ]

def identXHTMLdq : Identifier := it
  [ .strRule (.intOff 0) (sbytes "<?xml version=" ++ [0x22]),
    .searchRule (.intOff 19) 4096 (sbytes "<!doctype html") ]

def identXHTMLsq : Identifier := it
  [ .strRule (.intOff 0) (sbytes "<?xml version=" ++ [0x27]),
    .searchRule (.intOff 19) 4096 (sbytes "<!doctype html") ]

def identHTMLdoctype : Identifier := it
  [.searchRule (.intOff 0) 4096 (sbytes "<!doctype html")]

def identHTMLhtml : Identifier := it [.searchRule (.intOff 0) 4096 (sbytes "<html")]

def identHTMLhead : Identifier := it [.searchRule (.intOff 0) 4096 (sbytes "<head")]

def identHTMLtitle : Identifier := it [.searchRule (.intOff 0) 4096 (sbytes "<title")]

def identXML : Identifier := it [.strRule (.intOff 0) (sbytes "<?xml")]

def identPDF : Identifier := ib [.strRule (.intOff 0) (sbytes "%PDF-")]

def zipIdent (version : Int) : Identifier := ib
  [ .strRule (.intOff 0) (sbytes "PK" ++ [3, 4]),
    .structRule (.intOff 4) [.i8] [version] ]

/-- The builtin identifier registry in iteration order: the registrations use
`override=False`, so repeated tags chain at the first tag's position, which
for this table coincides with registration order. -/
def builtinIdentifiers : List (FileType × Identifier) :=
  [ (.EPUB2, identEPUB2),
    (.MOBI, identMOBI),
    (.PDB_EREADER, identEREADER),
    (.PDB_GUTENPALM, identGUTENPALM),
    (.PDB_PALMDOC, identPALMDOC),
    (.PDB_PLUCKER, identPLUCKER),
    (.LIT, identLIT),
    (.GIF87A, identGIF87A),
    (.GIF89A, identGIF89A),
    (.JPEG_JFIF, identJPEG_JFIF),
    (.JPEG_EXIF, identJPEG_EXIF),
    (.PNG, identPNG),
    (.FLAC, identFLAC),
    (.M4A, identM4A),
    (.MP3_1, identMP3_1),
    (.ID3V22, identID3V22),
    (.ID3V23, identID3V23),
    (.ID3V24, identID3V24),
    (.M4V1, identM4V1a),
    (.M4V1, identM4V1b),
    (.M4V2, identM4V2),
    (.M4V, identM4V),
    (.MKV, identMKV),
    (.WEBM, identWEBM),
    (.AVI, identAVI),
    (.OPF2, identOPF2),
    (.SVG, identSVG),
    (.XHTML, identXHTMLdq),
    (.XHTML, identXHTMLsq),
    (.HTML, identHTMLdoctype),
    (.HTML, identHTMLhtml),
    (.HTML, identHTMLhead),
    (.HTML, identHTMLtitle),
    (.XML, identXML),
    (.PDF, identPDF),
    (.ZIP09, zipIdent 0x09),
    (.ZIP10, zipIdent 0x0a),
    (.ZIP11, zipIdent 0x0b),
    (.ZIP20, zipIdent 0x14),
    (.ZIP30, zipIdent 0x2d) ]

/-- The process-wide `max_data_buffer_size`: maximum of the `max_size` of
every registered program, accumulated by `build()`. -/
def maxDataBufferSize : Nat :=
  (builtinIdentifiers.foldl (fun m fi => max m (calcIdentifierSizes fi.2.rules).2) 0).toNat

/-- The candidate loop of `identify_stream`: skip programs whose
text/binary flag excludes the classification, return the first match,
propagate any exception a candidate raises. -/
def identifyList (data : List Nat) (textfile : Bool) :
    List (FileType × Identifier) → PyResult (Option FileType)
  | [] => .ok none
  | (ft, ident) :: rest =>
    if textfile = true ∧ ident.text = false then identifyList data textfile rest
    else if textfile = false ∧ ident.binary = false then identifyList data textfile rest
    else
      match testIdentifierRules data ident with
      | .err e => .err e
      | .ok true => .ok (some ft)
      | .ok false => identifyList data textfile rest

/-- `identify_stream` on a buffer already limited to the pre-read prefix.
The extra (user) identifier registry is empty at startup, so iteration is
over the builtin registry alone. -/
def identifyData (data : List Nat) : PyResult (Option FileType) :=
  identifyList data (isText data) builtinIdentifiers

/-- `identify_stream(stream)`: pre-read `max_data_buffer_size` bytes from the
head of the stream and classify that buffer. -/
def identifyStream (stream : List Nat) : PyResult (Option FileType) :=
  identifyData (stream.take maxDataBufferSize)

/-! ## PDB header parser (biblio/parsers/pdb.py, PDBParser._parse_pdb_header)

The stream is modelled as the whole file byte list; `stream.read(n)` at
position `p` yields `(file.drop p).take n`, and `struct.unpack` fails unless
it receives exactly its size, so each fixed read demands enough bytes. -/

/-- Characters the database-name sanitizer keeps: the class
`[-A-Za-z0-9'";:,. ]` of the `re.sub`. -/
def pdbNameAllowed (c : Nat) : Bool :=
  c = 45 ∨ (65 ≤ c ∧ c ≤ 90) ∨ (97 ≤ c ∧ c ≤ 122) ∨ (48 ≤ c ∧ c ≤ 57) ∨
    c = 39 ∨ c = 34 ∨ c = 59 ∨ c = 58 ∨ c = 44 ∨ c = 46 ∨ c = 32

theorem dropWhile_len_le {α : Type} (p : α → Bool) :
    ∀ l : List α, (l.dropWhile p).length ≤ l.length
  | [] => le_refl _
  | a :: l => by
    rw [List.dropWhile_cons]
    split
    · exact (dropWhile_len_le p l).trans (Nat.le_succ _)
    · exact le_refl _

/-- `re.sub('[^-A-Za-z0-9\'";:,. ]+', '_', s)`: each maximal run of
disallowed characters becomes a single underscore (0x5f). -/
def sanitizePdbName : List Nat → List Nat
  | [] => []
  | c :: rest =>
    if pdbNameAllowed c then c :: sanitizePdbName rest
    else 0x5f :: sanitizePdbName (rest.dropWhile (fun b => !pdbNameAllowed b))
  termination_by l => l.length
  decreasing_by
    · simp
    · exact Nat.lt_succ_of_le (dropWhile_len_le _ _)

structure PdbHeader where
  name : List Nat
  attributes : Nat
  version : Nat
  creationTimestamp : Nat
  modificationTimestamp : Nat
  lastBackupTimestamp : Nat
  modificationNumber : Nat
  appinfoOffset : Nat
  sortinfoOffset : Nat
  pdbType : List Nat
  creator : List Nat
  uniqueidseed : Nat
  nextrecordlistid : Nat
  numRecords : Nat
  records : List (Nat × Int)
  deriving DecidableEq, Repr

/-- The record-offset loop: after the unconditional first 8-byte record-info
read, iterate `range(1, num_records)` times (so `num_records - 1` in `Nat`
arithmetic, which also covers `num_records = 0` exactly as `range` does),
emitting `(start, next_start - start)`; the final entry runs to end of file. -/
def pdbRecordsLoop (file : List Nat) : Nat → Nat → Nat → Option (List (Nat × Int))
  | 0, start, _ => some [(start, (file.length : Int) - start)]
  | k + 1, start, pos =>
    let chunk := (file.drop pos).take 8
    if chunk.length = 8 then
      let next := beVal (chunk.take 4)
      (pdbRecordsLoop file k next (pos + 8)).map ((start, (next : Int) - start) :: ·)
    else none

/-- `_parse_pdb_header`: unpack the 78-byte fixed header
(`>32sHHLLLLLL4s4sLLH`), build the records table, sanitize the name. -/
def parsePdbHeader (file : List Nat) : Option PdbHeader :=
  if 86 ≤ file.length then
    let hdr := file.take 78
    let numRecords := readBE hdr 76 2
    let start0 := readBE file 78 4
    (pdbRecordsLoop file (numRecords - 1) start0 86).map (fun records =>
      { name := sanitizePdbName ((hdr.take 32).filter (· ≠ 0))
        attributes := readBE hdr 32 2
        version := readBE hdr 34 2
        creationTimestamp := readBE hdr 36 4
        modificationTimestamp := readBE hdr 40 4
        lastBackupTimestamp := readBE hdr 44 4
        modificationNumber := readBE hdr 48 4
        appinfoOffset := readBE hdr 52 4
        sortinfoOffset := readBE hdr 56 4
        pdbType := (hdr.drop 60).take 4
        creator := (hdr.drop 64).take 4
        uniqueidseed := readBE hdr 68 4
        nextrecordlistid := readBE hdr 72 4
        numRecords := numRecords
        records := records })
  else none

/-! ## EXTH header parser (biblio/parsers/mobi.py, _parse_exth_header) -/

structure ExthRecord where
  rtype : Nat
  length : Nat
  data : List Nat
  deriving DecidableEq, Repr

structure ExthHeader where
  identifier : List Nat
  headerLength : Nat
  recordCount : Nat
  records : List ExthRecord
  deriving DecidableEq, Repr

/-- The `while records_left > 0` loop: each iteration unpacks
`(type, length)` from `exthdata[pos:pos+8]` (a `struct.error`, modelled
`none`, if fewer than 8 bytes are there), takes `exthdata[pos+8:pos+length]`
as data, and advances `pos` by `length`. -/
def parseExthRecords (exthdata : List Nat) : Nat → Nat → Option (List ExthRecord)
  | 0, _ => some []
  | k + 1, pos =>
    let chunk := pySliceN exthdata pos (pos + 8)
    if chunk.length = 8 then
      let ty := beVal (chunk.take 4)
      let len := beVal (chunk.drop 4)
      let d := pySliceN exthdata (pos + 8) (pos + len)
      (parseExthRecords exthdata k (pos + len)).map (⟨ty, len, d⟩ :: ·)
    else none

/-- `_parse_exth_header(raw)`: unpack `>4sLL` from `raw[:12]`, then read
`record_count` records from `raw[12:]`. -/
def parseExthHeader (raw : List Nat) : Option ExthHeader :=
  if 12 ≤ raw.length then
    let ident := raw.take 4
    let hl := readBE raw 4 4
    let rc := readBE raw 8 4
    (parseExthRecords (raw.drop 12) rc 0).map (fun recs => ⟨ident, hl, rc, recs⟩)
  else none

/-! ## MOBI record-0 parser (biblio/parsers/mobi.py, _parse_mobi_header) -/

/-- Fields present only when record 0 is longer than 16 bytes (the big
`>4sL...L` unpack of `raw[0x10:0x84]` and everything after it). -/
structure MobiMore where
  identifier : List Nat
  headerLength : Nat
  mobiType : Nat
  textEncoding : Nat
  uniqueId : Nat
  fileVersion : Nat
  ortographicIndexRecord : Nat
  inflectionIndexRecord : Nat
  indexNamesRecord : Nat
  indexKeysRecord : Nat
  extraIndex0Record : Nat
  extraIndex1Record : Nat
  extraIndex2Record : Nat
  extraIndex3Record : Nat
  extraIndex4Record : Nat
  extraIndex5Record : Nat
  firstNonbookRecord : Nat
  fullnameOffset : Nat
  fullnameLength : Nat
  locale : Nat
  dictionaryInputLanguage : Nat
  dictionaryOutputLanguage : Nat
  minVersion : Nat
  firstImageRecord : Nat
  huffmanRecord : Nat
  huffmanRecordCount : Nat
  huffmanTableRecord : Nat
  huffmanTableLength : Nat
  exthFlags : Nat
  drm : Option (Nat × Nat × Nat × Nat)
  extraFlags : Nat
  fullname : Option (List Nat)
  exth : Option ExthHeader
  deriving DecidableEq, Repr

/-- The parsed record 0: the PalmDOC-like 16-byte prefix, plus the MOBI
fields when the record is longer than 16 bytes. -/
structure MobiHeader where
  compression : Nat
  textLength : Nat
  recordCount : Nat
  recordSize : Nat
  encryption : Nat
  more : Option MobiMore
  deriving DecidableEq, Repr

/-- The DRM block: read `>LLLL` at `0xa4` only when the record reaches
`0xb4`. -/
def mobiDrm (raw : List Nat) : Option (Nat × Nat × Nat × Nat) :=
  if 0xb4 ≤ raw.length then
    some (readBE raw 0xa4 4, readBE raw 0xa8 4, readBE raw 0xac 4, readBE raw 0xb0 4)
  else none

/-- `extra_flags`: zero when `header_length` is outside `[0xe4, 0xf8]`,
otherwise the `>H` unpack of `raw[0xf2:0xf4]` (`none` models the
`struct.error` when fewer than 2 bytes are there). -/
def mobiExtraFlags (raw : List Nat) (hl : Nat) : Option Nat :=
  if hl < 0xe4 ∨ 0xf8 < hl then some 0
  else if (pySliceN raw 0xf2 0xf4).length = 2 then some (beVal (pySliceN raw 0xf2 0xf4))
  else none

/-- `fullname`: `raw[offset : offset+length]` only when the end lies
strictly inside the record. -/
def mobiFullname (raw : List Nat) (fno fnl : Nat) : Option (List Nat) :=
  if fno + fnl < raw.length then some (pySliceN raw fno (fno + fnl)) else none

/-- The EXTH step: decode `raw[16 + header_length:]` exactly when bit 0x40
of `exth_flags` is set (inner `some`); a failed decode propagates (outer
`none`). -/
def mobiExth (raw : List Nat) (hl flags : Nat) : Option (Option ExthHeader) :=
  if flags &&& 0x40 ≠ 0 then (parseExthHeader (raw.drop (16 + hl))).map some
  else some none

/-- The part of `_parse_mobi_header` past the 16-byte prefix: the `0x10:0x84`
unpack (demanding `len(raw) >= 0x84`), the conditional DRM block,
`extra_flags`, `fullname` and EXTH. -/
def parseMobiMore (raw : List Nat) : Option MobiMore :=
  if 0x84 ≤ raw.length then
    match mobiExtraFlags raw (readBE raw 0x14 4),
        mobiExth raw (readBE raw 0x14 4) (readBE raw 0x80 4) with
    | some ef, some exth =>
      some
        { identifier := (raw.drop 0x10).take 4
          headerLength := readBE raw 0x14 4
          mobiType := readBE raw 0x18 4
          textEncoding := readBE raw 0x1c 4
          uniqueId := readBE raw 0x20 4
          fileVersion := readBE raw 0x24 4
          ortographicIndexRecord := readBE raw 0x28 4
          inflectionIndexRecord := readBE raw 0x2c 4
          indexNamesRecord := readBE raw 0x30 4
          indexKeysRecord := readBE raw 0x34 4
          extraIndex0Record := readBE raw 0x38 4
          extraIndex1Record := readBE raw 0x3c 4
          extraIndex2Record := readBE raw 0x40 4
          extraIndex3Record := readBE raw 0x44 4
          extraIndex4Record := readBE raw 0x48 4
          extraIndex5Record := readBE raw 0x4c 4
          firstNonbookRecord := readBE raw 0x50 4
          fullnameOffset := readBE raw 0x54 4
          fullnameLength := readBE raw 0x58 4
          locale := readBE raw 0x5c 4
          dictionaryInputLanguage := readBE raw 0x60 4
          dictionaryOutputLanguage := readBE raw 0x64 4
          minVersion := readBE raw 0x68 4
          firstImageRecord := readBE raw 0x6c 4
          huffmanRecord := readBE raw 0x70 4
          huffmanRecordCount := readBE raw 0x74 4
          huffmanTableRecord := readBE raw 0x78 4
          huffmanTableLength := readBE raw 0x7c 4
          exthFlags := readBE raw 0x80 4
          drm := mobiDrm raw
          extraFlags := ef
          fullname := mobiFullname raw (readBE raw 0x54 4) (readBE raw 0x58 4)
          exth := exth }
    | _, _ => none
  else none

/-- `_parse_mobi_header(raw)`: unpack `>HHLHHHH` from `raw[0:0x10]` (a
`struct.error` unless 16 bytes are present), stop there when
`len(raw) <= 16`, otherwise parse the MOBI fields. -/
def parseMobiHeader (raw : List Nat) : Option MobiHeader :=
  if 16 ≤ raw.length then
    if raw.length ≤ 16 then
      some
        { compression := readBE raw 0 2
          textLength := readBE raw 4 4
          recordCount := readBE raw 8 2
          recordSize := readBE raw 10 2
          encryption := readBE raw 12 2
          more := none }
    else
      (parseMobiMore raw).map (fun m =>
        { compression := readBE raw 0 2
          textLength := readBE raw 4 4
          recordCount := readBE raw 8 2
          recordSize := readBE raw 10 2
          encryption := readBE raw 12 2
          more := some m })
  else none

/-! ## Language-tag codec (biblio/parsers/mobi.py, IANA_MOBI and friends)

The `IANA_MOBI` dict is transcribed in its literal order, with each inner
dict's `None` default first as written; inner tuples are
`(language id, dialect id)`.  CPython 2 dict iteration order is unspecified
(hash order); the model fixes the literal source order.  The concrete facts
proved below do not depend on that choice: no table entry has a dialect
value of 1, and language id 9 belongs to `en` alone. -/

/-- Inner dict with only the `None` default. -/
def ld (lang : Nat) : List (Option String × (Nat × Nat)) := [(none, (lang, 0))]

def ianaMobiTable : List (Option String × List (Option String × (Nat × Nat))) :=
  [ (none, [(none, (0, 0))]),
    (some "af", ld 54),
    (some "ar", [(none, (1, 0)), (some "AE", (1, 56)), (some "BH", (1, 60)),
      (some "DZ", (1, 20)), (some "EG", (1, 12)), (some "JO", (1, 44)),
      (some "KW", (1, 52)), (some "LB", (1, 48)), (some "MA", (1, 24)),
      (some "OM", (1, 32)), (some "QA", (1, 64)), (some "SA", (1, 4)),
      (some "SY", (1, 40)), (some "TN", (1, 28)), (some "YE", (1, 36))]),
    (some "as", ld 77),
    (some "az", ld 44),
    (some "be", ld 35),
    (some "bg", ld 2),
    (some "bn", ld 69),
    (some "ca", ld 3),
    (some "cs", ld 5),
    (some "da", ld 6),
    (some "de", [(none, (7, 0)), (some "AT", (7, 12)), (some "CH", (7, 8)),
      (some "LI", (7, 20)), (some "LU", (7, 16))]),
    (some "el", ld 8),
    (some "en", [(none, (9, 0)), (some "AU", (9, 12)), (some "BZ", (9, 40)),
      (some "CA", (9, 16)), (some "GB", (9, 8)), (some "IE", (9, 24)),
      (some "JM", (9, 32)), (some "NZ", (9, 20)), (some "PH", (9, 52)),
      (some "TT", (9, 44)), (some "US", (9, 4)), (some "ZA", (9, 28)),
      (some "ZW", (9, 48))]),
    (some "es", [(none, (10, 0)), (some "AR", (10, 44)), (some "BO", (10, 64)),
      (some "CL", (10, 52)), (some "CO", (10, 36)), (some "CR", (10, 20)),
      (some "DO", (10, 28)), (some "EC", (10, 48)), (some "ES", (10, 4)),
      (some "GT", (10, 16)), (some "HN", (10, 72)), (some "MX", (10, 8)),
      (some "NI", (10, 76)), (some "PA", (10, 24)), (some "PE", (10, 40)),
      (some "PR", (10, 80)), (some "PY", (10, 60)), (some "SV", (10, 68)),
      (some "UY", (10, 56)), (some "VE", (10, 32))]),
    (some "et", ld 37),
    (some "eu", ld 45),
    (some "fa", ld 41),
    (some "fi", ld 11),
    (some "fo", ld 56),
    (some "fr", [(none, (12, 0)), (some "BE", (12, 8)), (some "CA", (12, 12)),
      (some "CH", (12, 16)), (some "FR", (12, 4)), (some "LU", (12, 20)),
      (some "MC", (12, 24))]),
    (some "gu", ld 71),
    (some "he", ld 13),
    (some "hi", ld 57),
    (some "hr", ld 26),
    (some "hu", ld 14),
    (some "hy", ld 43),
    (some "id", ld 33),
    (some "is", ld 15),
    (some "it", [(none, (16, 0)), (some "CH", (16, 8)), (some "IT", (16, 4))]),
    (some "ja", ld 17),
    (some "ka", ld 55),
    (some "kk", ld 63),
    (some "kn", ld 75),
    (some "ko", ld 18),
    (some "kok", ld 87),
    (some "lt", ld 39),
    (some "lv", ld 38),
    (some "mk", ld 47),
    (some "ml", ld 76),
    (some "mr", ld 78),
    (some "ms", ld 62),
    (some "mt", ld 58),
    (some "ne", ld 97),
    (some "nl", [(none, (19, 0)), (some "BE", (19, 8))]),
    (some "no", ld 20),
    (some "or", ld 72),
    (some "pa", ld 70),
    (some "pl", ld 21),
    (some "pt", [(none, (22, 0)), (some "BR", (22, 4)), (some "PT", (22, 8))]),
    (some "rm", ld 23),
    (some "ro", ld 24),
    (some "ru", ld 25),
    (some "sa", ld 79),
    (some "se", ld 59),
    (some "sk", ld 27),
    (some "sl", ld 36),
    (some "sq", ld 28),
    (some "sr", [(none, (26, 12)), (some "RS", (26, 12))]),
    (some "st", ld 48),
    (some "sv", [(none, (29, 0)), (some "FI", (29, 8))]),
    (some "sw", ld 65),
    (some "ta", ld 73),
    (some "te", ld 74),
    (some "th", ld 30),
    (some "tn", ld 50),
    (some "tr", ld 31),
    (some "ts", ld 49),
    (some "tt", ld 68),
    (some "uk", ld 34),
    (some "ur", ld 32),
    (some "uz", [(none, (67, 0)), (some "UZ", (67, 8))]),
    (some "vi", ld 42),
    (some "wen", ld 46),
    (some "xh", ld 52),
    (some "zh", [(none, (4, 0)), (some "CN", (4, 8)), (some "HK", (4, 12)),
      (some "SG", (4, 16)), (some "TW", (4, 4))]),
    (some "zu", ld 53) ]

/-- Modelled from the spec: `lang_as_iso639_1` is referenced but undefined in
the source; per spec section 4.7 and design note (iii) the primary subtag is
only case-folded before the table lookup, so the helper is the identity. -/
def langAsIso6391 (lang : String) : String := lang

/-- Modelled from the spec: `pack` is referenced but undefined in the source;
per spec section 4.7 the result is the big-endian packed structure
`>HBB` = `0, dialect, language`, i.e. bytes `[0, 0, dialect, language]`. -/
def packHBB (mcode : Nat × Nat) : List Nat := [0, 0, mcode.2, mcode.1]

/-- Python `str.lower()` (the tags are ASCII). -/
def strLower (s : String) : String := String.mk (s.toList.map Char.toLower)

/-- Python `str.upper()`. -/
def strUpper (s : String) : String := String.mk (s.toList.map Char.toUpper)

/-- Python `icode.split('-')`. -/
def splitDash (s : String) : List String := (s.toList.splitOn (Char.ofNat 45)).map String.mk

/-- Python `str.title()` on a single word: first character upper-cased, the
rest lower-cased. -/
def asciiTitle (s : String) : String :=
  match s.toList with
  | [] => ""
  | c :: rest => String.mk (c.toUpper :: rest.map Char.toLower)

/-- The first `while` of `iana2mobi_language`: pop subtags until one,
lower-cased and passed through `lang_as_iso639_1`, is a non-empty key of
`IANA_MOBI`; return that language dict and the remaining subtags
(`IANA_MOBI[None]` and no subtags when the loop exhausts). -/
def findLangDict : List String → List (Option String × (Nat × Nat)) × List String
  | [] => ((List.lookup none ianaMobiTable).getD (ld 0), [])
  | t :: rest =>
    let lang := langAsIso6391 (strLower t)
    match List.lookup (some lang) ianaMobiTable with
    | some d => if lang ≠ "" then (d, rest) else findLangDict rest
    | none => findLangDict rest

/-- The second `while` of `iana2mobi_language`: for each remaining subtag try
it verbatim, `.title()`-cased, then upper-cased against the language dict;
the first hit replaces the default `langdict[None]` code. -/
def findDialect (d : List (Option String × (Nat × Nat))) : List String → Nat × Nat
  | [] => (List.lookup none d).getD (0, 0)
  | st :: rest =>
    let hit :=
      match List.lookup (some st) d with
      | some mc => some mc
      | none =>
        match List.lookup (some (asciiTitle st)) d with
        | some mc => some mc
        | none => List.lookup (some (strUpper st)) d
    match hit with
    | some mc => mc
    | none => findDialect d rest

/-- `iana2mobi_language(icode)`: falsy input keeps `IANA_MOBI[None]` and no
subtags; otherwise split on `-`, locate the language dict, resolve the
dialect, and emit `pack('>HBB', 0, dialect, language)`. -/
def iana2mobiLanguage (icode : Option String) : List Nat :=
  match icode with
  | none => packHBB ((List.lookup none ((List.lookup none ianaMobiTable).getD (ld 0))).getD (0, 0))
  | some s =>
    if s = "" then
      packHBB ((List.lookup none ((List.lookup none ianaMobiTable).getD (ld 0))).getD (0, 0))
    else
      let found := findLangDict (splitDash s)
      packHBB (findDialect found.1 found.2)

/-- The inner `for subcode, t in d.items()` loop of `mobi2iana_language`:
`prefix` is (re)assigned on a language-id match, and a dialect-id match
assigns `suffix` and breaks.  Assigning the `None` key to `prefix` is
indistinguishable from leaving it unset, which the `Option` conflates. -/
def mobi2ianaInner (code : Option String) (langcode sublangcode : Nat) :
    List (Option String × (Nat × Nat)) → Option String → Option String →
      Option String × Option String
  | [], px, sx => (px, sx)
  | (subcode, (cc, cl)) :: rest, px, sx =>
    let px' := if cc = langcode then code else px
    if cl = sublangcode then (px', subcode.map strLower)
    else mobi2ianaInner code langcode sublangcode rest px' sx

/-- The outer `for code, d in IANA_MOBI.items()` loop: stop after the first
dict that set `prefix`; `suffix` persists across iterations. -/
def mobi2ianaOuter (langcode sublangcode : Nat) :
    List (Option String × List (Option String × (Nat × Nat))) →
      Option String → Option String → Option String × Option String
  | [], px, sx => (px, sx)
  | (code, d) :: rest, px, sx =>
    let r := mobi2ianaInner code langcode sublangcode d px sx
    if r.1.isSome then r else mobi2ianaOuter langcode sublangcode rest r.1 r.2

/-- `mobi2iana_language(mobi_locale)`: extract `lang = locale & 0xff` and
`sublang = (locale >> 10) & 0xff`, reverse-scan the table, and render
`"und"`, the bare language, or `lang-region`. -/
def mobi2ianaLanguage (mobiLocale : Nat) : String :=
  let langcode := mobiLocale &&& 0xff
  let sublangcode := (mobiLocale >>> 10) &&& 0xff
  match mobi2ianaOuter langcode sublangcode ianaMobiTable none none with
  | (none, _) => "und"
  | (some p, none) => p
  | (some p, some s) => p ++ "-" ++ s

/-! ## MOBI subject-tag processing (process_mobi_metadata, type 105) -/

/-- Contract of Python's `list(set(xs))`: some duplicate-free enumeration of
the members of `xs`; the iteration order is implementation-defined (hash
order), so the model quantifies over every function satisfying the
contract. -/
def IsPySetList (f : List (List Nat) → List (List Nat)) : Prop :=
  ∀ xs, (f xs).Nodup ∧ ∀ a, a ∈ f xs ↔ a ∈ xs

/-- The tags accumulation of `process_mobi_metadata` over the EXTH records
(`(type, data)` pairs): each type-105 record's data is split on `;`
(byte 59), the pieces stripped and appended, and the list rebuilt as
`list(set(...))` — here the parameter `setList`.  `cp1252` decoding is a
single-byte bijection and `;` and whitespace are ASCII, so the decode is
modelled as the identity on bytes. -/
def processMobiTags (setList : List (List Nat) → List (List Nat))
    (records : List (Nat × List Nat)) : List (List Nat) :=
  records.foldl
    (fun tags r =>
      if r.1 = 105 then setList (tags ++ (List.splitOn 59 r.2).map pyStrip) else tags)
    []

/-! ## Parser dispatch (biblio/plugs.py and biblio/parsers init module) -/

/-- A registered parser: only the `reader` matters to `read_metadata`; its
raw-metadata result is treated as an opaque payload. -/
structure ParserPlug where
  reader : List Nat → PyResult (List Nat)

/-- `find_pluggable(subsystem, plugtype)` for a fixed subsystem: `None` for a
`None` plugtype, otherwise the extra (user) registry shadows the builtin
one. -/
def findPluggable {α : Type} (extra builtin : List (FileType × α)) :
    Option FileType → Option α
  | none => none
  | some pt =>
    match List.lookup pt extra with
    | some v => some v
    | none => List.lookup pt builtin

/-- `read_metadata(filename)`: identify the file; `None` when unidentified;
otherwise look up the parser and call its reader.  When no parser is
registered for the detected type, `find_parser` returns `None` and
`parser.reader` raises `AttributeError`. -/
def readMetadata (file : List Nat) (extra builtin : List (FileType × ParserPlug)) :
    PyResult (Option (List Nat)) :=
  match identifyStream file with
  | .err e => .err e
  | .ok none => .ok none
  | .ok (some ft) =>
    match findPluggable extra builtin (some ft) with
    | none => .err .attributeError
    | some p =>
      match p.reader file with
      | .err e => .err e
      | .ok r => .ok (some r)

/-! ## Claim C1: language-tag codec round trip -/

/-- C1.  The codec does not round-trip: `iana2mobi_language("en-US")` packs
`(0, dialect 4, language 9)` as the claim says, but feeding the packed value
`0x0409` back through `mobi2iana_language` yields `"en"` and not `"en-us"`:
the reverse map compares `(locale >> 10) & 0xff = 1` against the table's
dialect values, which are stored pre-multiplied by 4 (`US` is 4), so no
region ever matches. -/
theorem c1_language_codec_bug :
    iana2mobiLanguage (some "en-US") = [0x00, 0x00, 0x04, 0x09] ∧
    beVal (iana2mobiLanguage (some "en-US")) = 0x0409 ∧
    mobi2ianaLanguage 0x0409 = "en" ∧
    mobi2ianaLanguage (beVal (iana2mobiLanguage (some "en-US"))) ≠ "en-us" := by
  refine ⟨by decide, by decide, by decide, by decide⟩

/-! ## Claim C2: identifier-engine bounds safety -/

/-- The four-byte stream `"ID3" 0xff` on which the engine aborts. -/
def id3CrashStream : List Nat := sbytes "ID3" ++ [0xFF]

/-- C2.  `min_size` is computed as the *minimum* of the per-rule
requirements (here 3 for the ID3V22 program whose second rule needs 5
bytes), so the reject check `len(data) < min_size` passes on a 4-byte
buffer and the `struct` rule unpacks two bytes from the one-byte slice
`data[3:5]`, aborting `identify_stream` with a `struct.error`. -/
theorem c2_identifier_bounds_bug :
    (calcIdentifierSizes identID3V22.rules).1 = 3 ∧
    testIdentifierRules id3CrashStream identID3V22 = .err .structError ∧
    identifyStream id3CrashStream = .err .structError := by
  refine ⟨by decide, by decide, by decide⟩

/-! ## Claim C3: cursor discipline of the match phase -/

/-- A program whose second rule has the string offset `"-50"`, resolving to
the negative offset 2 - 50 on the two-byte input below. -/
def negOffsetProgram : Identifier :=
  ⟨true, true, [.strRule (.intOff 0) (sbytes "AB"), .strRule (.minusOff 50) (sbytes "C")]⟩

/-- A program whose first rule already uses the relative offset `"+0"`. -/
def relFirstProgram : Identifier :=
  ⟨true, true, [.strRule (.plusOff 0) (sbytes "A")]⟩

/-- C3.  A negative resolved offset does not fail with an InvalidOffset
identification error: the `raise RuntimeException(...)` of the source names
an undefined identifier, so the engine crashes with a `NameError` instead.
Moreover the cursor is not zero-initialized for the program run: the
enclosing `current_pos = 0` never initializes the closure-local variable, so
a program whose first rule uses `"+0"` crashes with an `UnboundLocalError`
instead of matching at offset 0. -/
theorem c3_cursor_offset_bug :
    testIdentifierRules (sbytes "AB") negOffsetProgram = .err .nameError ∧
    testIdentifierRules (sbytes "A") relFirstProgram = .err .unboundLocalError := by
  refine ⟨by decide, by decide⟩

/-! ## Claim C4: PDB record-table invariant -/

/-- An 86-byte file whose header declares `num_records = 0`. -/
def pdbZeroRecordsFile : List Nat := List.replicate 86 0

/-- A 94-byte file declaring two records whose offsets decrease (90, 80). -/
def pdbDecreasingFile : List Nat :=
  List.replicate 76 0 ++ [0, 2] ++ [0, 0, 0, 90, 0, 0, 0, 0] ++ [0, 0, 0, 80, 0, 0, 0, 0]

/-- C4.  The parser reads the first 8-byte record entry unconditionally and
always appends a final record running to end of file, so a header with
`num_records = 0` is accepted with a 1-entry `records` list; and nothing
checks ordering, so decreasing offsets are accepted verbatim, with a
negative computed length. -/
theorem c4_pdb_records_bug :
    (parsePdbHeader pdbZeroRecordsFile).map (fun h => (h.numRecords, h.records.length)) =
      some (0, 1) ∧
    (parsePdbHeader pdbDecreasingFile).map (fun h => (h.numRecords, h.records)) =
      some (2, [(90, -10), (80, 14)]) := by
  refine ⟨by decide, by decide⟩

/-! ## Claim C5: EXTH decoding iteration and termination -/

/-- An EXTH block with one record whose length field is 0 (< 8). -/
def exthZeroLengthInput : List Nat :=
  sbytes "EXTH" ++ [0, 0, 0, 12] ++ [0, 0, 0, 1] ++ [0, 0, 0, 100] ++ [0, 0, 0, 0]

/-- C5.  The loop does iterate `record_count` times reading
`(type, length, data of length - 8)` and terminates (the model is a total
function), but a record with `length < 8` is accepted rather than treated as
a fatal malformed-record error: the length-0 record below parses to a record
with empty data and the position does not advance. -/
theorem c5_exth_length_bug :
    parseExthHeader exthZeroLengthInput =
      some ⟨sbytes "EXTH", 12, 1, [⟨100, 0, []⟩]⟩ ∧
    (parseExthHeader exthZeroLengthInput).map (fun e => e.records.length) =
      (parseExthHeader exthZeroLengthInput).map (fun e => e.recordCount) := by
  refine ⟨by decide, by decide⟩

/-! ## Claim C8: prefix-only identification -/

/-- A five-byte file matching the XML program (`max_size` 5). -/
def xmlFileA : List Nat := sbytes "<?xml"

/-- The same five bytes followed by a 0xFF byte. -/
def xmlFileB : List Nat := xmlFileA ++ [0xFF]

/-- C8 counterexample.  Both files agree on the first `max_size` bytes of the
registered XML program and those bytes match it, yet only the first file
identifies as XML: the trailing 0xFF flips the text/binary classification,
so every text-only program (XML included) is skipped for the second file,
which identifies as nothing at all. -/
theorem c8_prefix_only_counterexample :
    (calcIdentifierSizes identXML.rules).2 = 5 ∧
    xmlFileA.take 5 = xmlFileB.take 5 ∧
    testIdentifierRules (xmlFileA.take 5) identXML = .ok true ∧
    testIdentifierRules (xmlFileB.take 5) identXML = .ok true ∧
    identifyStream xmlFileA = .ok (some .XML) ∧
    identifyStream xmlFileB = .ok none := by
  refine ⟨by decide, by decide, by decide, by decide, by decide, by decide⟩

/-- C8 amended.  Identification is a function of the first
`max_data_buffer_size` bytes of the stream (not of any single program's
`max_size`): two streams agreeing on that pre-read prefix identify
identically; agreement on just a program's `max_size` bytes guarantees
nothing, because later bytes can flip the text/binary classification or
satisfy an earlier program. -/
theorem c8_identification_prefix_bounded :
    ∀ s1 s2 : List Nat, s1.take maxDataBufferSize = s2.take maxDataBufferSize →
      identifyStream s1 = identifyStream s2 := by
  intro s1 s2 h
  unfold identifyStream
  rw [h]

/-- A 4200-byte file strictly longer than `max_data_buffer_size` = 4115. -/
def longFileC8 : List Nat := List.replicate 4200 65

theorem c8_identification_prefix_bounded_witness :
    identifyStream longFileC8 = identifyStream (longFileC8 ++ [66]) := by
  apply c8_identification_prefix_bounded
  have hle : maxDataBufferSize ≤ longFileC8.length := by
    rw [longFileC8, List.length_replicate]
    decide
  rw [List.take_append_of_le_length hle]

/-! ## Claim C9: read_metadata result contract -/

/-- A file identifying as PDF, a type for which no parser module ever
registers a parser. -/
def pdfFile : List Nat := sbytes "%PDF-" ++ [0xFF]

/-- C9 counterexample.  A file whose detected file type has no registered
parser does not yield a non-exceptional result: `find_parser` returns
`None` and `read_metadata` evaluates `None.reader`, raising an
`AttributeError`. -/
theorem c9_read_metadata_counterexample :
    identifyStream pdfFile = .ok (some .PDF) ∧
    readMetadata pdfFile [] [] = .err .attributeError := by
  refine ⟨by decide, rfl⟩

theorem readMetadata_of_err (file : List Nat) (extra builtin : List (FileType × ParserPlug))
    (e : PyErr) (hid : identifyStream file = .err e) :
    readMetadata file extra builtin = .err e := by
  unfold readMetadata
  rw [hid]

theorem readMetadata_of_none (file : List Nat) (extra builtin : List (FileType × ParserPlug))
    (hid : identifyStream file = .ok none) :
    readMetadata file extra builtin = .ok none := by
  unfold readMetadata
  rw [hid]

theorem readMetadata_of_some (file : List Nat) (extra builtin : List (FileType × ParserPlug))
    (ft : FileType) (hid : identifyStream file = .ok (some ft)) :
    readMetadata file extra builtin =
      match findPluggable extra builtin (some ft) with
      | none => .err .attributeError
      | some p =>
        match p.reader file with
        | .err e => .err e
        | .ok r => .ok (some r) := by
  unfold readMetadata
  rw [hid]

/-- C9 amended.  `read_metadata` returns `None` exactly when the identifier
engine classifies the file as unknown (identify returns `None` without
raising); when a parser is registered for the detected type, the reader's
result (or its exception) is returned; when no parser is registered the call
raises an `AttributeError` instead of returning `None`. -/
theorem c9_read_metadata_contract :
    ∀ (file : List Nat) (extra builtin : List (FileType × ParserPlug)),
      (readMetadata file extra builtin = .ok none ↔ identifyStream file = .ok none) ∧
      (∀ ft, identifyStream file = .ok (some ft) →
        (findPluggable extra builtin (some ft) = none →
          readMetadata file extra builtin = .err .attributeError) ∧
        (∀ p, findPluggable extra builtin (some ft) = some p →
          readMetadata file extra builtin =
            match p.reader file with
            | .err e => .err e
            | .ok r => .ok (some r))) := by
  intro file extra builtin
  constructor
  · constructor
    · intro h
      cases hid : identifyStream file with
      | err e =>
        rw [readMetadata_of_err file extra builtin e hid] at h
        exact absurd h (by simp)
      | ok o =>
        cases o with
        | none => rfl
        | some ft =>
          rw [readMetadata_of_some file extra builtin ft hid] at h
          cases hfp : findPluggable extra builtin (some ft) with
          | none => rw [hfp] at h; exact absurd h (by simp)
          | some p =>
            rw [hfp] at h
            have h' : (match p.reader file with
                | PyResult.err e => PyResult.err e
                | PyResult.ok r => PyResult.ok (some r)) = PyResult.ok none := h
            cases hr : p.reader file with
            | err e => rw [hr] at h'; exact absurd h' (by simp)
            | ok r => rw [hr] at h'; exact absurd h' (by simp)
    · intro h
      exact readMetadata_of_none file extra builtin h
  · intro ft hft
    constructor
    · intro hfp
      rw [readMetadata_of_some file extra builtin ft hft, hfp]
    · intro p hfp
      rw [readMetadata_of_some file extra builtin ft hft, hfp]

/-- A parser stub whose reader succeeds with an empty raw record. -/
def plugOkC9 : ParserPlug := ⟨fun _ => .ok []⟩

theorem c9_read_metadata_contract_witness :
    readMetadata [] [] [] = .ok none ∧
    readMetadata pdfFile [(.PDF, plugOkC9)] [] = .ok (some []) := by
  constructor
  · exact (c9_read_metadata_contract [] [] []).1.mpr (by decide)
  · exact ((c9_read_metadata_contract pdfFile [(.PDF, plugOkC9)] []).2 .PDF (by decide)).2
      plugOkC9 rfl

/-! ## Claim C10: MOBI tag deduplication order -/

/-- A single EXTH subject record carrying the two tags `b` and `a`. -/
def bbaRecord : List (Nat × List Nat) := [(105, sbytes "b;a")]

theorem processMobiTags_go_nodup (f : List (List Nat) → List (List Nat))
    (hf : IsPySetList f) :
    ∀ (recs : List (Nat × List Nat)) (acc : List (List Nat)), acc.Nodup →
      (recs.foldl
        (fun tags r =>
          if r.1 = 105 then f (tags ++ (List.splitOn 59 r.2).map pyStrip) else tags)
        acc).Nodup
  | [], _, h => h
  | r :: rest, acc, h => by
    rw [List.foldl_cons]
    apply processMobiTags_go_nodup f hf rest
    split
    · exact (hf _).1
    · exact h

/-- One legal hash enumeration of a Python set: `dedup` then `reverse`. -/
theorem isPySetList_dedupReverse : IsPySetList (fun xs => xs.dedup.reverse) := by
  intro xs
  refine ⟨List.nodup_reverse.mpr xs.nodup_dedup, fun a => ?_⟩
  rw [List.mem_reverse, List.mem_dedup]

/-- C10.  Splitting on `;`, stripping and deduplicating hold, but the
insertion order is not preserved: the tags list is rebuilt as
`list(set(tags))`, whose order is the set's hash-iteration order.  Under
every enumeration satisfying the set contract the result is duplicate-free,
but there is a legal enumeration under which the record `"b;a"` yields
`["a", "b"]` rather than the insertion order `["b", "a"]` — so the
construction cannot guarantee the claimed order. -/
theorem c10_tag_dedup_bug :
    (∀ f, IsPySetList f → ∀ recs, (processMobiTags f recs).Nodup) ∧
    (∃ f, IsPySetList f ∧ processMobiTags f bbaRecord = [sbytes "a", sbytes "b"] ∧
      processMobiTags f bbaRecord ≠ [sbytes "b", sbytes "a"]) := by
  constructor
  · intro f hf recs
    exact processMobiTags_go_nodup f hf recs [] List.nodup_nil
  · exact ⟨fun xs => xs.dedup.reverse, isPySetList_dedupReverse, by decide, by decide⟩

theorem c10_tag_dedup_bug_witness :
    (processMobiTags (fun xs => xs.dedup.reverse) bbaRecord).Nodup :=
  c10_tag_dedup_bug.1 (fun xs => xs.dedup.reverse) isPySetList_dedupReverse bbaRecord

/-! ## Claim C6: MOBI record-0 conditional extraction -/

theorem mobiDrm_isSome (raw : List Nat) :
    (mobiDrm raw).isSome ↔ 0xb4 ≤ raw.length := by
  unfold mobiDrm
  by_cases h : 0xb4 ≤ raw.length <;> simp [h]

theorem mobiFullname_isSome (raw : List Nat) (fno fnl : Nat) :
    (mobiFullname raw fno fnl).isSome ↔ fno + fnl < raw.length := by
  unfold mobiFullname
  by_cases h : fno + fnl < raw.length <;> simp [h]

theorem mobiExtraFlags_zero (raw : List Nat) (hl ef : Nat)
    (heq : mobiExtraFlags raw hl = some ef) (hout : hl < 0xe4 ∨ 0xf8 < hl) :
    ef = 0 := by
  unfold mobiExtraFlags at heq
  rw [if_pos hout] at heq
  exact (Option.some_inj.mp heq).symm

theorem mobiExtraFlags_read (raw : List Nat) (hl ef : Nat)
    (heq : mobiExtraFlags raw hl = some ef) (h1 : 0xe4 ≤ hl) (h2 : hl ≤ 0xf8) :
    ef = beVal (pySliceN raw 0xf2 0xf4) := by
  unfold mobiExtraFlags at heq
  rw [if_neg (by omega)] at heq
  split at heq
  · exact (Option.some_inj.mp heq).symm
  · exact absurd heq (by simp)

theorem mobiExth_isSome (raw : List Nat) (hl flags : Nat) (exth : Option ExthHeader)
    (heq : mobiExth raw hl flags = some exth) :
    exth.isSome ↔ flags &&& 0x40 ≠ 0 := by
  unfold mobiExth at heq
  split at heq
  · rcases Option.map_eq_some'.mp heq with ⟨e, _, rfl⟩
    simpa
  · next hflag =>
    rw [← Option.some_inj.mp heq]
    simpa using hflag

/-- Inversion of a successful parse with a present MOBI section. -/
theorem parseMobiHeader_more (raw : List Nat) (h : MobiHeader) (m : MobiMore)
    (hp : parseMobiHeader raw = some h) (hm : h.more = some m) :
    parseMobiMore raw = some m := by
  unfold parseMobiHeader at hp
  split at hp
  · split at hp
    · have hh := Option.some_inj.mp hp
      rw [← hh] at hm
      exact absurd hm (by simp)
    · rcases Option.map_eq_some'.mp hp with ⟨m', hpm, hfm⟩
      rw [← hfm] at hm
      have : some m' = some m := hm
      rw [← Option.some_inj.mp this]
      exact hpm
  · exact absurd hp (by simp)

/-- Inversion of `parseMobiMore`: a successful result carries exactly the
conditional fields of the definition. -/
theorem parseMobiMore_props (raw : List Nat) (m : MobiMore)
    (h : parseMobiMore raw = some m) :
    (m.drm.isSome ↔ 0xb4 ≤ raw.length) ∧
    (m.headerLength < 0xe4 ∨ 0xf8 < m.headerLength → m.extraFlags = 0) ∧
    (0xe4 ≤ m.headerLength → m.headerLength ≤ 0xf8 →
      m.extraFlags = beVal (pySliceN raw 0xf2 0xf4)) ∧
    (m.fullname.isSome ↔ m.fullnameOffset + m.fullnameLength < raw.length) ∧
    (m.exth.isSome ↔ m.exthFlags &&& 0x40 ≠ 0) := by
  unfold parseMobiMore at h
  split at h
  · split at h
    · next ef exth heq1 heq2 =>
      have hm := Option.some_inj.mp h
      subst hm
      refine ⟨mobiDrm_isSome raw, ?_, ?_, mobiFullname_isSome raw _ _, ?_⟩
      · intro hout
        exact mobiExtraFlags_zero raw _ _ heq1 hout
      · intro h1 h2
        exact mobiExtraFlags_read raw _ _ heq1 h1 h2
      · exact mobiExth_isSome raw _ _ _ heq2
    · exact absurd h (by simp)
  · exact absurd h (by simp)

/-- C6 counterexample.  The claim quantifies over every raw record-0 byte
string and says a record of length ≤ 16 yields the 16-byte PalmDOC-like
prefix; but a record shorter than 16 bytes fails the initial `>HHLHHHH`
unpack with a `struct.error`, so the empty record yields no header at all. -/
theorem c6_mobi_short_record_counterexample : parseMobiHeader [] = none := by decide

/-- C6 amended.  A record shorter than 16 bytes aborts the prefix unpack;
one of exactly 16 bytes yields only the PalmDOC-like prefix; and on every
successfully parsed longer record: the DRM block is present iff the raw
length reaches 0xb4; `extra_flags` is zero when `header_length` is outside
`[0xe4, 0xf8]` and is the u16 at 0xf2 when inside; `fullname` is present iff
`fullname_offset + fullname_length` lies strictly inside the record; and an
EXTH header is decoded exactly when `exth_flags & 0x40` is set. -/
theorem c6_mobi_conditional_extraction :
    (∀ raw : List Nat, raw.length < 16 → parseMobiHeader raw = none) ∧
    (∀ raw : List Nat, raw.length = 16 →
      (parseMobiHeader raw).map MobiHeader.more = some none) ∧
    (∀ (raw : List Nat) (h : MobiHeader) (m : MobiMore),
      parseMobiHeader raw = some h → h.more = some m →
        ((m.drm.isSome ↔ 0xb4 ≤ raw.length) ∧
         (m.headerLength < 0xe4 ∨ 0xf8 < m.headerLength → m.extraFlags = 0) ∧
         (0xe4 ≤ m.headerLength → m.headerLength ≤ 0xf8 →
            m.extraFlags = beVal (pySliceN raw 0xf2 0xf4)) ∧
         (m.fullname.isSome ↔ m.fullnameOffset + m.fullnameLength < raw.length) ∧
         (m.exth.isSome ↔ m.exthFlags &&& 0x40 ≠ 0))) := by
  refine ⟨?_, ?_, ?_⟩
  · intro raw hlt
    unfold parseMobiHeader
    rw [if_neg (by omega)]
  · intro raw h16
    unfold parseMobiHeader
    rw [if_pos (by omega), if_pos (by omega)]
    rfl
  · intro raw h m hp hm
    exact parseMobiMore_props raw m (parseMobiHeader_more raw h m hp hm)

/-- A 248-byte record 0: `MOBI` identifier, `header_length` 0xe8,
`fullname_offset` 16, `fullname_length` 4, all other fields zero. -/
def rawBig : List Nat :=
  List.replicate 16 0 ++ sbytes "MOBI" ++ [0, 0, 0, 232] ++ List.replicate 60 0 ++
    [0, 0, 0, 16] ++ [0, 0, 0, 4] ++ List.replicate 156 0

/-- The MOBI section `parseMobiMore` computes for `rawBig`. -/
def mobiMoreW : MobiMore :=
  { identifier := sbytes "MOBI"
    headerLength := 232
    mobiType := 0
    textEncoding := 0
    uniqueId := 0
    fileVersion := 0
    ortographicIndexRecord := 0
    inflectionIndexRecord := 0
    indexNamesRecord := 0
    indexKeysRecord := 0
    extraIndex0Record := 0
    extraIndex1Record := 0
    extraIndex2Record := 0
    extraIndex3Record := 0
    extraIndex4Record := 0
    extraIndex5Record := 0
    firstNonbookRecord := 0
    fullnameOffset := 16
    fullnameLength := 4
    locale := 0
    dictionaryInputLanguage := 0
    dictionaryOutputLanguage := 0
    minVersion := 0
    firstImageRecord := 0
    huffmanRecord := 0
    huffmanRecordCount := 0
    huffmanTableRecord := 0
    huffmanTableLength := 0
    exthFlags := 0
    drm := some (0, 0, 0, 0)
    extraFlags := 0
    fullname := some (sbytes "MOBI")
    exth := none }

theorem c6_mobi_conditional_extraction_witness :
    parseMobiHeader (List.replicate 10 0) = none ∧
    (parseMobiHeader (List.replicate 16 0)).map MobiHeader.more = some none ∧
    ((mobiMoreW.drm.isSome ↔ 0xb4 ≤ rawBig.length) ∧
     (mobiMoreW.headerLength < 0xe4 ∨ 0xf8 < mobiMoreW.headerLength →
        mobiMoreW.extraFlags = 0) ∧
     (0xe4 ≤ mobiMoreW.headerLength → mobiMoreW.headerLength ≤ 0xf8 →
        mobiMoreW.extraFlags = beVal (pySliceN rawBig 0xf2 0xf4)) ∧
     (mobiMoreW.fullname.isSome ↔
        mobiMoreW.fullnameOffset + mobiMoreW.fullnameLength < rawBig.length) ∧
     (mobiMoreW.exth.isSome ↔ mobiMoreW.exthFlags &&& 0x40 ≠ 0)) :=
  ⟨c6_mobi_conditional_extraction.1 (List.replicate 10 0) (by decide),
   c6_mobi_conditional_extraction.2.1 (List.replicate 16 0) (by decide),
   c6_mobi_conditional_extraction.2.2 rawBig
     { compression := 0, textLength := 0, recordCount := 0, recordSize := 0,
       encryption := 0, more := some mobiMoreW }
     mobiMoreW (by decide) rfl⟩

/-! ## Claim C7: text-classifier contract -/

/-- Pure 7-bit approved text: every byte is plain ASCII with category 1. -/
def Pure7 (buf : List Nat) : Prop := ∀ b ∈ buf, b &&& 0x80 = 0 ∧ textChars b = 1

instance : DecidablePred Pure7 := fun buf =>
  List.decidableBAll (fun b => b &&& 0x80 = 0 ∧ textChars b = 1) buf

/-- Scanning past a pure-ASCII approved prefix changes nothing. -/
theorem utf8scan_append_pure7 :
    ∀ pre : List Nat, Pure7 pre → ∀ (tail : List Nat) (found : Int),
      utf8scan (pre ++ tail) none found = utf8scan tail none found
  | [], _, _, _ => rfl
  | c :: pre, h, tail, found => by
    have hc := h c (List.mem_cons_self c pre)
    have hpre : Pure7 pre := fun b hb => h b (List.mem_cons_of_mem c hb)
    rw [List.cons_append]
    rw [show utf8scan (c :: (pre ++ tail)) none found =
        utf8scan (pre ++ tail) none found by
      simp [utf8scan, hc.1, hc.2]]
    exact utf8scan_append_pure7 pre hpre tail found

/-- The scan of a pure-ASCII approved buffer returns the running level. -/
theorem utf8scan_pure7 (buf : List Nat) (h : Pure7 buf) (found : Int) :
    utf8scan buf none found = found := by
  have := utf8scan_append_pure7 buf h [] found
  simpa using this

/-- The multibyte lead classification of `looks_like_utf8`: the chain of bit
tests on a non-ASCII, non-continuation byte, yielding the number of expected
continuation bytes (`none` for an ASCII or 10xxxxxx byte, and for the
patternless 0xFE/0xFF which the final `else` rejects). -/
def utf8Lead (c : Nat) : Option Nat :=
  if c &&& 0x80 = 0 then none
  else if c &&& 0x40 = 0 then none
  else if c &&& 0x20 = 0 then some 1
  else if c &&& 0x10 = 0 then some 2
  else if c &&& 0x08 = 0 then some 3
  else if c &&& 0x04 = 0 then some 4
  else if c &&& 0x02 = 0 then some 5
  else none

/-- A byte classified as a lead needing `k` continuations sends the scan
into continuation mode `some k`. -/
theorem utf8scan_cons_lead (c k : Nat) (h : utf8Lead c = some k) :
    ∀ (rest : List Nat) (found : Int),
      utf8scan (c :: rest) none found = utf8scan rest (some k) found := by
  intro rest found
  unfold utf8Lead at h
  by_cases h1 : c &&& 0x80 = 0
  · rw [if_pos h1] at h
    exact absurd h (by simp)
  · rw [if_neg h1] at h
    by_cases h2 : c &&& 0x40 = 0
    · rw [if_pos h2] at h
      exact absurd h (by simp)
    · rw [if_neg h2] at h
      by_cases h3 : c &&& 0x20 = 0
      · rw [if_pos h3] at h
        rw [(Option.some_inj.mp h).symm]
        simp [utf8scan, h1, h2, h3]
      · rw [if_neg h3] at h
        by_cases h4 : c &&& 0x10 = 0
        · rw [if_pos h4] at h
          rw [(Option.some_inj.mp h).symm]
          simp [utf8scan, h1, h2, h3, h4]
        · rw [if_neg h4] at h
          by_cases h5 : c &&& 0x08 = 0
          · rw [if_pos h5] at h
            rw [(Option.some_inj.mp h).symm]
            simp [utf8scan, h1, h2, h3, h4, h5]
          · rw [if_neg h5] at h
            by_cases h6 : c &&& 0x04 = 0
            · rw [if_pos h6] at h
              rw [(Option.some_inj.mp h).symm]
              simp [utf8scan, h1, h2, h3, h4, h5, h6]
            · rw [if_neg h6] at h
              by_cases h7 : c &&& 0x02 = 0
              · rw [if_pos h7] at h
                rw [(Option.some_inj.mp h).symm]
                simp [utf8scan, h1, h2, h3, h4, h5, h6, h7]
              · rw [if_neg h7] at h
                exact absurd h (by simp)

/-- Truncation: fewer valid continuation bytes than the lead demands, at the
end of the buffer, return the running level unchanged. -/
theorem utf8scan_trunc :
    ∀ (conts : List Nat) (k : Nat) (found : Int),
      (∀ b ∈ conts, b &&& 0x80 ≠ 0 ∧ b &&& 0x40 = 0) → conts.length < k →
      utf8scan conts (some k) found = found
  | [], _, _, _, _ => rfl
  | b :: rest, k, found, hconts, hlen => by
    have hb := hconts b (List.mem_cons_self b rest)
    have hrest : ∀ x ∈ rest, x &&& 0x80 ≠ 0 ∧ x &&& 0x40 = 0 := fun x hx =>
      hconts x (List.mem_cons_of_mem b hx)
    have hk1 : k ≠ 1 := by
      have := hlen
      simp only [List.length_cons] at this
      omega
    rw [show utf8scan (b :: rest) (some k) found =
        utf8scan rest (some (k - 1)) found by
      simp [utf8scan, hb.1, hb.2, hk1]]
    apply utf8scan_trunc rest (k - 1) found hrest
    have := hlen
    simp only [List.length_cons] at this
    omega

/-- Result 2 requires a byte with the high bit set. -/
theorem utf8scan_two_high :
    ∀ (buf : List Nat) (mode : Option Nat) (found : Int),
      utf8scan buf mode found = 2 → found = 2 ∨ ∃ b ∈ buf, b &&& 0x80 ≠ 0
  | [], _, found, h => Or.inl h
  | c :: rest, some k, found, h => by
    by_cases hc : c &&& 0x80 = 0 ∨ c &&& 0x40 ≠ 0
    · rw [show utf8scan (c :: rest) (some k) found = -1 by simp [utf8scan, hc]] at h
      exact absurd h (by decide)
    · exact Or.inr ⟨c, List.mem_cons_self c rest, fun h0 => hc (Or.inl h0)⟩
  | c :: rest, none, found, h => by
    by_cases h80 : c &&& 0x80 = 0
    · by_cases ht : textChars c ≠ 1
      · rw [show utf8scan (c :: rest) none found = 0 by simp [utf8scan, h80, ht]] at h
        exact absurd h (by decide)
      · rw [show utf8scan (c :: rest) none found = utf8scan rest none found by
          simp [utf8scan, h80, ht]] at h
        rcases utf8scan_two_high rest none found h with h2 | ⟨b, hb, hbit⟩
        · exact Or.inl h2
        · exact Or.inr ⟨b, List.mem_cons_of_mem c hb, hbit⟩
    · exact Or.inr ⟨c, List.mem_cons_self c rest, h80⟩

/-- C7 counterexample.  The claim's case conditions conflict on mixed
buffers: `[0x00, 0xFF]` is structurally invalid UTF-8 (0xFF has no valid
lead pattern) so the claim demands −1, yet the scan hits the rejected
control 0x00 first and returns 0; symmetrically `[0xFF, 0x00]` contains a
rejected plain-ASCII control so the claim demands 0, yet it returns −1. -/
theorem c7_utf8_order_counterexample :
    looksLikeUtf8 [0x00, 0xFF] = 0 ∧ looksLikeUtf8 [0x00, 0xFF] ≠ -1 ∧
    looksLikeUtf8 [0xFF, 0x00] = -1 ∧ looksLikeUtf8 [0xFF, 0x00] ≠ 0 := by
  refine ⟨by decide, by decide, by decide, by decide⟩

/-- C7 amended.  The scan decides by the first offending byte: after a pure
7-bit approved prefix, a rejected ASCII control returns 0 and a structural
violation (a 10xxxxxx lead, or the patternless 0xFF) returns −1, in both
cases regardless of what follows; a pure 7-bit approved buffer returns 1;
2 is returned only when some byte has the high bit set; a buffer truncated
in the middle of a multibyte sequence — any valid lead followed at
end-of-buffer by fewer than its required number of valid continuation
bytes, after a prefix the scan completed cleanly at level `f` — returns
the level `f` observed so far, not a failure; and `is_text(buf)` holds
exactly when `looks_like_utf8(buf) > 0`. -/
theorem c7_utf8_classifier :
    (∀ buf : List Nat, Pure7 buf → looksLikeUtf8 buf = 1) ∧
    (∀ buf : List Nat, looksLikeUtf8 buf = 2 → ∃ b ∈ buf, b &&& 0x80 ≠ 0) ∧
    (∀ (pre : List Nat) (c : Nat) (rest : List Nat), Pure7 pre →
      c &&& 0x80 = 0 → textChars c ≠ 1 → looksLikeUtf8 (pre ++ c :: rest) = 0) ∧
    (∀ (pre : List Nat) (c : Nat) (rest : List Nat), Pure7 pre →
      c &&& 0x80 ≠ 0 → c &&& 0x40 = 0 → looksLikeUtf8 (pre ++ c :: rest) = -1) ∧
    (∀ (pre rest : List Nat), Pure7 pre → looksLikeUtf8 (pre ++ 0xFF :: rest) = -1) ∧
    (∀ (buf : List Nat) (f : Int) (c k : Nat) (conts : List Nat),
      (∀ tail, utf8scan (buf ++ tail) none 1 = utf8scan tail none f) →
      utf8Lead c = some k →
      (∀ b ∈ conts, b &&& 0x80 ≠ 0 ∧ b &&& 0x40 = 0) →
      conts.length < k →
      looksLikeUtf8 (buf ++ c :: conts) = f) ∧
    (∀ buf : List Nat, isText buf = true ↔ 0 < looksLikeUtf8 buf) := by
  refine ⟨?_, ?_, ?_, ?_, ?_, ?_, ?_⟩
  · intro buf h
    exact utf8scan_pure7 buf h 1
  · intro buf h
    rcases utf8scan_two_high buf none 1 h with h1 | h2
    · exact absurd h1 (by decide)
    · exact h2
  · intro pre c rest hpre h80 ht
    rw [looksLikeUtf8, utf8scan_append_pure7 pre hpre]
    simp [utf8scan, h80, ht]
  · intro pre c rest hpre h80 h40
    rw [looksLikeUtf8, utf8scan_append_pure7 pre hpre]
    simp [utf8scan, h80, h40]
  · intro pre rest hpre
    rw [looksLikeUtf8, utf8scan_append_pure7 pre hpre]
    rfl
  · intro buf f c k conts hbuf hlead hconts hlen
    rw [looksLikeUtf8, hbuf (c :: conts), utf8scan_cons_lead c k hlead conts f,
      utf8scan_trunc conts k f hconts hlen]
  · intro buf
    simp [isText]

theorem c7_utf8_classifier_witness :
    looksLikeUtf8 (sbytes "ok") = 1 ∧
    (∃ b ∈ [0xC3, 0xA9], b &&& 0x80 ≠ 0) ∧
    looksLikeUtf8 ([0x41] ++ 0x00 :: [0xFF]) = 0 ∧
    looksLikeUtf8 ([0x41] ++ 0x80 :: [0x42]) = -1 ∧
    looksLikeUtf8 ([0x41] ++ 0xFF :: [0x00]) = -1 ∧
    looksLikeUtf8 ([0x41] ++ 0xE2 :: [0x80]) = 1 ∧
    looksLikeUtf8 ([0xC3, 0xA9] ++ 0xF0 :: [0x90, 0x8F]) = 2 ∧
    (isText [0x41] = true ↔ 0 < looksLikeUtf8 [0x41]) :=
  ⟨c7_utf8_classifier.1 (sbytes "ok") (by decide),
   c7_utf8_classifier.2.1 [0xC3, 0xA9] (by decide),
   c7_utf8_classifier.2.2.1 [0x41] 0x00 [0xFF] (by decide) (by decide) (by decide),
   c7_utf8_classifier.2.2.2.1 [0x41] 0x80 [0x42] (by decide) (by decide) (by decide),
   c7_utf8_classifier.2.2.2.2.1 [0x41] [0x00] (by decide),
   c7_utf8_classifier.2.2.2.2.2.1 [0x41] 1 0xE2 2 [0x80] (fun _ => rfl) (by decide)
     (by decide) (by decide),
   c7_utf8_classifier.2.2.2.2.2.1 [0xC3, 0xA9] 2 0xF0 3 [0x90, 0x8F] (fun _ => rfl)
     (by decide) (by decide) (by decide),
   c7_utf8_classifier.2.2.2.2.2.2 [0x41]⟩

end Biblio
